import Mathlib

/-!
Shallow embedding of the ProDriveNet vehicle-lookup proxy (E-Noer/ProDriveNet).

The repository contains four near-duplicate Express handlers for
`GET /api/rdw`.  The claims concern:
  * `src/server.js`          — all-or-nothing fan-out over six datasets,
                               plate check is only non-emptiness;
  * `src/unnamed/part_000`   — regex-validated plate, all-or-nothing
                               (only its validation and header lines are
                               needed by the claims);
  * `src/unnamed/part_001`   — regex-validated plate, partial-tolerant
                               fan-out over four datasets with a warnings
                               list.

JavaScript values flowing through the handlers are modelled by `JSPrim`.
Numbers are modelled as integers (plus a NaN marker): every numeric string
exercised by the claims is an integer literal; strings with a fractional
part are outside the model and map to NaN.  String length and slicing use
Lean characters where JavaScript uses UTF-16 code units; the two agree on
the ASCII data the handlers process.
-/

namespace ProDrive

/-- Model of the JavaScript primitive values the handlers manipulate. -/
inductive JSPrim where
  | undef
  | null
  | nan
  | num (n : Int)
  | str (s : String)
deriving DecidableEq, Repr

/-- JavaScript truthiness: `undefined`, `null`, `NaN`, `0` and `""` are
falsy, everything else here is truthy. -/
def JSPrim.truthy : JSPrim → Bool
  | .undef => false
  | .null => false
  | .nan => false
  | .num n => n != 0
  | .str s => s != ""

/-- JavaScript `a || b` restricted to the primitive values of the model. -/
def jsOr (a b : JSPrim) : JSPrim := if a.truthy then a else b

/-- JavaScript `toUpperCase()`, character by character (the plates and
column values in play are ASCII, where the two agree). -/
def jsToUpper (s : String) : String := ⟨s.data.map Char.toUpper⟩

/-- The global hyphen replacement with the empty string: delete every
hyphen. -/
def stripHyphens (s : String) : String := ⟨s.data.filter fun c => c ≠ '-'⟩

/-- JavaScript `trim()`: drop leading and trailing whitespace. -/
def jsTrim (s : String) : String :=
  ⟨((s.data.dropWhile Char.isWhitespace).reverse.dropWhile Char.isWhitespace).reverse⟩

/-- JavaScript `s.slice(0, n)` (used to truncate warning messages). -/
def jsTake (s : String) (n : Nat) : String := ⟨s.data.take n⟩

/-- Substring containment over characters. -/
def hasInfix (pat : List Char) : List Char → Bool
  | [] => pat.isPrefixOf []
  | c :: rest => pat.isPrefixOf (c :: rest) || hasInfix pat rest

/-- Whether a warning entry mentions the axle dataset name "assen". -/
def mentionsAssen (w : String) : Bool := hasInfix "assen".data w.data

/-- Digits of a decimal literal read into an integer. -/
def digitsToInt (l : List Char) : Int :=
  l.foldl (fun a c => a * 10 + ((c.toNat - 48 : Nat) : Int)) 0

/-- JavaScript `Number()` on a string, restricted to the integer fragment:
an all-whitespace string is 0, an optionally negated digit string is that
integer, everything else (including fractional forms, which no claim
exercises) is NaN. -/
def strToNumber (s : String) : JSPrim :=
  let t := (jsTrim s).data
  if t = [] then .num 0
  else if t.all Char.isDigit then .num (digitsToInt t)
  else
    match t with
    | '-' :: rest =>
        if rest ≠ [] && rest.all Char.isDigit then .num (-(digitsToInt rest))
        else .nan
    | _ => .nan

/-- JavaScript `Number()` on a primitive value. -/
def jsNumber : JSPrim → JSPrim
  | .undef => .nan
  | .null => .num 0
  | .nan => .nan
  | .num n => .num n
  | .str s => strToNumber s

/-- The coercion pattern `v ? Number(v) : null` that the handlers inline at
every quantity field. -/
def coerce (v : JSPrim) : JSPrim :=
  if v.truthy then jsNumber v else .null

/-- JavaScript `s.slice(a, b)` for `0 ≤ a ≤ b`. -/
def jsSlice (s : String) (a b : Nat) : String := ⟨(s.data.drop a).take (b - a)⟩

/-- Field access `v.slice(a, b)` on a value expected to be a string; a
truthy non-string here would raise a TypeError in the source, which the
model does not represent (the upstream JSON delivers these columns as
strings). -/
def sliceField (v : JSPrim) (a b : Nat) : JSPrim :=
  match v with
  | .str s => .str (jsSlice s a b)
  | w => w

/-- The `parseDate` of `src/server.js`:
`if (!s || typeof s !== 'string' || s.length !== 8) return null;` then the
three hyphenated slices. -/
def parseDate (s : JSPrim) : JSPrim :=
  if !s.truthy then .null
  else match s with
    | .str t =>
        if t.length ≠ 8 then .null
        else .str (jsSlice t 0 4 ++ "-" ++ jsSlice t 4 6 ++ "-" ++ jsSlice t 6 8)
    | _ => .null

/-- The `parseDate` of `src/unnamed/part_001` (and part_000/part_002):
`(s && s.length === 8) ? ... : null`; on a truthy non-string, `s.length`
is `undefined`, which is never `=== 8`. -/
def p1ParseDate (s : JSPrim) : JSPrim :=
  if s.truthy then
    match s with
    | .str t =>
        if t.length = 8 then
          .str (jsSlice t 0 4 ++ "-" ++ jsSlice t 4 6 ++ "-" ++ jsSlice t 6 8)
        else .null
    | _ => .null
  else .null

/-- The sort-key pattern `(x || d)` applied to a coerced sequence number:
a truthy number is itself, every falsy value (null, NaN, 0) is the
default `d`.  Coerced sequence numbers are always `num`, `nan` or `null`,
so the non-`num` truthy arm is unreachable. -/
def jsNumOr (v : JSPrim) (d : Int) : Int :=
  if v.truthy then (match v with | .num n => n | _ => d) else d

/-- The pattern `xs[0]?.f` — `undefined` when the list is empty. -/
def headField (l : List α) (f : α → JSPrim) : JSPrim :=
  match l with
  | [] => .undef
  | a :: _ => f a

/-- Stable insertion of `a` into a list sorted ascending by `key`: `a`
goes after every element whose key is not strictly greater. -/
def insertByKey (key : α → Int) (a : α) : List α → List α
  | [] => [a]
  | b :: bs => if key a < key b then a :: b :: bs else b :: insertByKey key a bs

/-- Stable sort by an integer key.  `Array.prototype.sort` with the
comparator `(a, b) => key a - key b` is stable (ES2019) and the key is a
total order, so the JavaScript result is this unique stably-sorted list. -/
def sortByKey (key : α → Int) (l : List α) : List α :=
  l.foldl (fun acc a => insertByKey key a acc) []

theorem mem_insertByKey (key : α → Int) (a x : α) (l : List α)
    (h : x ∈ insertByKey key a l) : x = a ∨ x ∈ l := by
  induction l with
  | nil =>
      simp [insertByKey] at h
      exact Or.inl h
  | cons b bs ih =>
      by_cases hc : key a < key b
      · simp only [insertByKey, if_pos hc] at h
        rcases List.mem_cons.mp h with h | h
        · exact Or.inl h
        · exact Or.inr h
      · simp only [insertByKey, if_neg hc] at h
        rcases List.mem_cons.mp h with h | h
        · exact Or.inr (by simp [h])
        · rcases ih h with h2 | h2
          · exact Or.inl h2
          · exact Or.inr (List.mem_cons_of_mem _ h2)

theorem pairwise_insertByKey (key : α → Int) (a : α) (l : List α)
    (h : l.Pairwise fun x y => key x ≤ key y) :
    (insertByKey key a l).Pairwise fun x y => key x ≤ key y := by
  induction l with
  | nil => simp [insertByKey]
  | cons b bs ih =>
      rcases List.pairwise_cons.mp h with ⟨hb, hbs⟩
      by_cases hc : key a < key b
      · simp only [insertByKey, if_pos hc]
        refine List.pairwise_cons.mpr ⟨?_, h⟩
        intro x hx
        rcases List.mem_cons.mp hx with rfl | hx
        · exact le_of_lt hc
        · exact le_trans (le_of_lt hc) (hb _ hx)
      · simp only [insertByKey, if_neg hc]
        refine List.pairwise_cons.mpr ⟨?_, ih hbs⟩
        intro x hx
        rcases mem_insertByKey key a x bs hx with rfl | hx
        · exact le_of_not_lt hc
        · exact hb _ hx

theorem sortByKey_pairwise (key : α → Int) (l : List α) :
    (sortByKey key l).Pairwise fun x y => key x ≤ key y := by
  have h : ∀ acc : List α, (acc.Pairwise fun x y => key x ≤ key y) →
      ((l.foldl (fun acc a => insertByKey key a acc) acc).Pairwise
        fun x y => key x ≤ key y) := by
    induction l with
    | nil => intro acc hacc; simpa using hacc
    | cons a as ih =>
        intro acc hacc
        exact ih _ (pairwise_insertByKey key a acc hacc)
  simpa [sortByKey] using h [] (by simp)

/-- A raw row of the primary ("basis") dataset `m9d7-ebf2`, holding every
column the handlers read (plus `tweede_kleur`, which the upstream dataset
carries but no handler reads).  A missing JSON property reads as
`undefined`, hence the defaults. -/
structure BasisRec where
  merk : JSPrim := .undef
  handelsbenaming : JSPrim := .undef
  voertuigsoort : JSPrim := .undef
  datum_eerste_toelating : JSPrim := .undef
  vervaldatum_apk : JSPrim := .undef
  eerste_kleur : JSPrim := .undef
  tweede_kleur : JSPrim := .undef
  aantal_zitplaatsen : JSPrim := .undef
  aantal_deuren : JSPrim := .undef
  bruto_bpm : JSPrim := .undef
  massa_ledig_voertuig : JSPrim := .undef
  massa_rijklaar : JSPrim := .undef
  maximum_massa_trekken_ongeremd : JSPrim := .undef
  maximum_trekken_massa_geremd : JSPrim := .undef
  inrichting : JSPrim := .undef
  catalogusprijs : JSPrim := .undef
  aantal_cilinders : JSPrim := .undef
  cilinderinhoud : JSPrim := .undef
  lengte : JSPrim := .undef
  breedte : JSPrim := .undef
  hoogte_voertuig : JSPrim := .undef
  hoogte : JSPrim := .undef
  wielbasis : JSPrim := .undef
  europese_voertuigcategorie : JSPrim := .undef
  eu_voertuigcategorie : JSPrim := .undef
  zuinigheidsclassificatie : JSPrim := .undef
  type : JSPrim := .undef
  variant : JSPrim := .undef
  uitvoering : JSPrim := .undef
  typegoedkeuringsnummer : JSPrim := .undef
  datum_tenaamstelling : JSPrim := .undef
  datum_eerste_tenaamstelling_in_nederland : JSPrim := .undef
  wam_verzekerd : JSPrim := .undef
  export_indicator : JSPrim := .undef
  openstaande_terugroepactie_indicator : JSPrim := .undef
  taxi_indicator : JSPrim := .undef
  tellerstandoordeel : JSPrim := .undef
deriving Repr, DecidableEq

/-- A raw row of the fuel dataset `8ys7-d773`. -/
structure FuelRec where
  brandstof_volgnummer : JSPrim := .undef
  brandstof_omschrijving : JSPrim := .undef
  brandstofverbruik_buiten : JSPrim := .undef
  brandstofverbruik_gecombineerd : JSPrim := .undef
  brandstofverbruik_stad : JSPrim := .undef
  co2_uitstoot_gecombineerd : JSPrim := .undef
  emissiecode_omschrijving : JSPrim := .undef
  uitlaatemissieniveau : JSPrim := .undef
  nettomaximumvermogen : JSPrim := .undef
  geluidsniveau_rijdend : JSPrim := .undef
  geluidsniveau_stationair : JSPrim := .undef
  toerental_geluidsniveau : JSPrim := .undef
deriving Repr, DecidableEq

/-- A raw row of the colour dataset `ihha-7xnj`. -/
structure KleurRec where
  eerste_kleur : JSPrim := .undef
  tweede_kleur : JSPrim := .undef
deriving Repr, DecidableEq

/-- A raw row of a body ("carrosserie") dataset. -/
structure CarrRec where
  carrosserie_volgnummer : JSPrim := .undef
  carrosserietype_omschrijving : JSPrim := .undef
deriving Repr, DecidableEq

/-- A raw row of the axle dataset `3huj-srit`. -/
structure AsRec where
  asnummer : JSPrim := .undef
  spoorbreedte : JSPrim := .undef
  technische_max_aslast : JSPrim := .undef
  wielbasis : JSPrim := .undef
  aantal_assen : JSPrim := .undef
  aslast_technisch_toegestaan : JSPrim := .undef
deriving Repr, DecidableEq

/-- One shaped fuel entry of `src/server.js` (lines 75–88). -/
structure FuelOut where
  volgnummer : JSPrim
  omschrijving : JSPrim
  verbruik_buiten_l_per_100km : JSPrim
  verbruik_gecombineerd_l_per_100km : JSPrim
  verbruik_stad_l_per_100km : JSPrim
  co2_gecombineerd_g_km : JSPrim
  emissiecode_omschrijving : JSPrim
  uitlaatemissieniveau : JSPrim
  nettomaximumvermogen_kw : JSPrim
  geluidsniveau_rijdend_db : JSPrim
  geluidsniveau_stationair_db : JSPrim
  toerental_geluidsniveau : JSPrim
deriving Repr, DecidableEq

def mkFuel (b : FuelRec) : FuelOut :=
  { volgnummer := coerce b.brandstof_volgnummer
  , omschrijving := jsOr b.brandstof_omschrijving .null
  , verbruik_buiten_l_per_100km := coerce b.brandstofverbruik_buiten
  , verbruik_gecombineerd_l_per_100km := coerce b.brandstofverbruik_gecombineerd
  , verbruik_stad_l_per_100km := coerce b.brandstofverbruik_stad
  , co2_gecombineerd_g_km := coerce b.co2_uitstoot_gecombineerd
  , emissiecode_omschrijving := jsOr b.emissiecode_omschrijving .null
  , uitlaatemissieniveau := jsOr b.uitlaatemissieniveau .null
  , nettomaximumvermogen_kw := coerce b.nettomaximumvermogen
  , geluidsniveau_rijdend_db := coerce b.geluidsniveau_rijdend
  , geluidsniveau_stationair_db := coerce b.geluidsniveau_stationair
  , toerental_geluidsniveau := coerce b.toerental_geluidsniveau }

/-- The fuel list of `src/server.js`:
`.map(...).sort((a,b) => (a.volgnummer||0) - (b.volgnummer||0))`. -/
def serverFuels (rows : List FuelRec) : List FuelOut :=
  sortByKey (fun f => jsNumOr f.volgnummer 0) (rows.map mkFuel)

/-- A shaped colour entry (all variants). -/
structure KleurOut where
  eerste_kleur : JSPrim
  tweede_kleur : JSPrim
deriving Repr, DecidableEq

def mkKleur (k : KleurRec) : KleurOut :=
  { eerste_kleur := jsOr k.eerste_kleur .null
  , tweede_kleur := jsOr k.tweede_kleur .null }

/-- A shaped body entry (`src/server.js`). -/
structure CarrOut where
  carrosserie_volgnummer : JSPrim
  carrosserietype_omschrijving : JSPrim
deriving Repr, DecidableEq

def mkCarr (c : CarrRec) : CarrOut :=
  { carrosserie_volgnummer := coerce c.carrosserie_volgnummer
  , carrosserietype_omschrijving := jsOr c.carrosserietype_omschrijving .null }

/-- A shaped axle entry (all variants). -/
structure AsOut where
  asnummer : JSPrim
  spoorbreedte : JSPrim
  technische_max_aslast : JSPrim
  wielbasis : JSPrim
  aantal_assen : JSPrim
  aslast_technisch_toegestaan : JSPrim
deriving Repr, DecidableEq

def mkAs (a : AsRec) : AsOut :=
  { asnummer := coerce a.asnummer
  , spoorbreedte := coerce a.spoorbreedte
  , technische_max_aslast := coerce a.technische_max_aslast
  , wielbasis := coerce a.wielbasis
  , aantal_assen := coerce a.aantal_assen
  , aslast_technisch_toegestaan := coerce a.aslast_technisch_toegestaan }

/-- The `bouwjaar` pattern
`d ? Number(d.slice(0,4)) : null` shared by all variants. -/
def bouwjaarOf (d : JSPrim) : JSPrim :=
  if d.truthy then jsNumber (sliceField d 0 4) else .null

/-- The `summary` object of `src/server.js` (lines 115–133). -/
structure ServerSummary where
  kenteken : String
  merk : JSPrim
  handelsbenaming : JSPrim
  voertuigsoort : JSPrim
  bouwjaar : JSPrim
  datum_eerste_toelating : JSPrim
  apk_vervaldatum : JSPrim
  kleur : JSPrim
  tweede_kleur : JSPrim
  brandstof : JSPrim
  zitplaatsen : JSPrim
  deuren : JSPrim
  bpm_bruto : JSPrim
  massa_ledig_kg : JSPrim
  massa_rijklaar_kg : JSPrim
  trekgewicht_ongeremd_kg : JSPrim
  trekgewicht_geremd_kg : JSPrim
deriving Repr, DecidableEq

def mkServerSummary (plate : String) (basis : BasisRec)
    (fuels : List FuelOut) (kleuren : List KleurOut) : ServerSummary :=
  { kenteken := plate
  , merk := jsOr basis.merk .null
  , handelsbenaming := jsOr basis.handelsbenaming .null
  , voertuigsoort := jsOr basis.voertuigsoort .null
  , bouwjaar := bouwjaarOf basis.datum_eerste_toelating
  , datum_eerste_toelating := parseDate basis.datum_eerste_toelating
  , apk_vervaldatum := parseDate basis.vervaldatum_apk
  , kleur := jsOr (jsOr (headField kleuren KleurOut.eerste_kleur) basis.eerste_kleur) .null
  , tweede_kleur := jsOr (headField kleuren KleurOut.tweede_kleur) .null
  , brandstof := jsOr (headField fuels FuelOut.omschrijving) .null
  , zitplaatsen := coerce basis.aantal_zitplaatsen
  , deuren := coerce basis.aantal_deuren
  , bpm_bruto := coerce basis.bruto_bpm
  , massa_ledig_kg := coerce basis.massa_ledig_voertuig
  , massa_rijklaar_kg := coerce basis.massa_rijklaar
  , trekgewicht_ongeremd_kg := coerce basis.maximum_massa_trekken_ongeremd
  , trekgewicht_geremd_kg := coerce basis.maximum_trekken_massa_geremd }

/-- The `details.basis` object of `src/server.js` (lines 136–163). -/
structure ServerBasisOut where
  voertuigsoort : JSPrim
  merk : JSPrim
  handelsbenaming : JSPrim
  inrichting : JSPrim
  catalogusprijs : JSPrim
  cilinders : JSPrim
  cilinderinhoud_cc : JSPrim
  lengte_cm : JSPrim
  breedte_cm : JSPrim
  hoogte_cm : JSPrim
  wielbasis_cm : JSPrim
  eu_voertuigcategorie : JSPrim
  zuinigheidsclassificatie : JSPrim
  type : JSPrim
  variant : JSPrim
  uitvoering : JSPrim
  typegoedkeuringsnummer : JSPrim
  datum_eerste_toelating : JSPrim
  datum_tenaamstelling : JSPrim
  datum_eerste_tenaamstelling_in_nederland : JSPrim
  apk_vervaldatum : JSPrim
  wam_verzekerd : JSPrim
  export_indicator : JSPrim
  openstaande_terugroepactie_indicator : JSPrim
  taxi_indicator : JSPrim
  tellerstandoordeel : JSPrim
deriving Repr, DecidableEq

def mkServerBasisOut (basis : BasisRec) : ServerBasisOut :=
  { voertuigsoort := jsOr basis.voertuigsoort .null
  , merk := jsOr basis.merk .null
  , handelsbenaming := jsOr basis.handelsbenaming .null
  , inrichting := jsOr basis.inrichting .null
  , catalogusprijs := coerce basis.catalogusprijs
  , cilinders := coerce basis.aantal_cilinders
  , cilinderinhoud_cc := coerce basis.cilinderinhoud
  , lengte_cm := coerce basis.lengte
  , breedte_cm := coerce basis.breedte
  , hoogte_cm := coerce basis.hoogte_voertuig
  , wielbasis_cm := coerce basis.wielbasis
  , eu_voertuigcategorie := jsOr basis.europese_voertuigcategorie .null
  , zuinigheidsclassificatie := jsOr basis.zuinigheidsclassificatie .null
  , type := jsOr basis.type .null
  , variant := jsOr basis.variant .null
  , uitvoering := jsOr basis.uitvoering .null
  , typegoedkeuringsnummer := jsOr basis.typegoedkeuringsnummer .null
  , datum_eerste_toelating := parseDate basis.datum_eerste_toelating
  , datum_tenaamstelling := parseDate basis.datum_tenaamstelling
  , datum_eerste_tenaamstelling_in_nederland :=
      parseDate basis.datum_eerste_tenaamstelling_in_nederland
  , apk_vervaldatum := parseDate basis.vervaldatum_apk
  , wam_verzekerd := jsOr basis.wam_verzekerd .null
  , export_indicator := jsOr basis.export_indicator .null
  , openstaande_terugroepactie_indicator :=
      jsOr basis.openstaande_terugroepactie_indicator .null
  , taxi_indicator := jsOr basis.taxi_indicator .null
  , tellerstandoordeel := jsOr basis.tellerstandoordeel .null }

/-- The process environment as the handlers see it: each variable is a
string or absent.  `RDW_APP_TOKEN` is the one credential safe to send
upstream; `RDW_APP_SECRET` is the second, more sensitive credential named
by the `do NOT send X-App-Secret` comment in `src/unnamed/part_000`; the
Supabase values are the remaining process credentials. -/
structure ProcEnv where
  RDW_APP_TOKEN : Option String := none
  RDW_APP_SECRET : Option String := none
  SUPABASE_URL : Option String := none
  SUPABASE_ANON_KEY : Option String := none
deriving Repr, DecidableEq

/-- The outbound header set:
`const headers = {}; if (process.env.RDW_APP_TOKEN) headers['X-App-Token'] = ...`
(identical in all four variants; an empty-string token is falsy and adds
no header). -/
def buildHeaders (env : ProcEnv) : List (String × String) :=
  match env.RDW_APP_TOKEN with
  | some t => if t ≠ "" then [("X-App-Token", t)] else []
  | none => []

/-- One outbound request to the open-data service. -/
structure OutboundReq where
  url : String
  headers : List (String × String)
deriving Repr, DecidableEq

/-- The six dataset URLs `src/server.js` interpolates the plate into. -/
def serverDatasetUrls (plate : String) : List String :=
  [ "https://opendata.rdw.nl/resource/m9d7-ebf2.json?kenteken=" ++ plate
  , "https://opendata.rdw.nl/resource/8ys7-d773.json?kenteken=" ++ plate
  , "https://opendata.rdw.nl/resource/ihha-7xnj.json?kenteken=" ++ plate
  , "https://opendata.rdw.nl/resource/vezc-m2t6.json?kenteken=" ++ plate
  , "https://opendata.rdw.nl/resource/jhie-znh9.json?kenteken=" ++ plate
  , "https://opendata.rdw.nl/resource/3huj-srit.json?kenteken=" ++ plate ]

/-- The requests the `src/server.js` fan-out issues: every dataset URL with
the same header set built from the environment. -/
def serverRequests (plate : String) (env : ProcEnv) : List OutboundReq :=
  (serverDatasetUrls plate).map fun u => { url := u, headers := buildHeaders env }

/-- Result of one upstream fetch as the handlers observe it: either the
parsed row list, or a thrown error message (non-2xx status, network
failure, or unparseable body all throw inside `q`/`fetchJSON`). -/
inductive Fetch (α : Type) where
  | ok (rows : List α)
  | err (msg : String)
deriving Repr, DecidableEq

/-- The row list a partial-tolerant branch is left with: the fetched rows
on success, the untouched initialiser `[]` when the fetch threw. -/
def Fetch.rowsOr : Fetch α → List α
  | .ok r => r
  | .err _ => []

/-- Upstream outcomes for the six datasets `src/server.js` queries. -/
structure Upstream where
  basis : Fetch BasisRec
  brandstof : Fetch FuelRec
  kleur : Fetch KleurRec
  carrosserie : Fetch CarrRec
  carroSpec : Fetch CarrRec
  assen : Fetch AsRec
deriving Repr, DecidableEq

def Fetch.errMsg? : Fetch α → Option String
  | .ok _ => none
  | .err m => some m

/-- The error surfaced by `Promise.all` in `src/server.js`, modelled as
the first failed fetch in dataset order. `Promise.all` actually rejects
with whichever fetch fails first in time, which is scheduler-dependent;
no claim depends on the choice. -/
def firstError (up : Upstream) : Option String :=
  up.basis.errMsg? <|> up.brandstof.errMsg? <|> up.kleur.errMsg? <|>
    up.carrosserie.errMsg? <|> up.carroSpec.errMsg? <|> up.assen.errMsg?

/-- HTTP responses of the handlers. `fail` is the catch-all error branch
(`res.status(500)` in `src/server.js`). -/
inductive HResp (α : Type) where
  | ok (body : α)
  | badRequest (error : String)
  | notFound (error : String)
  | fail (status : Nat) (error : String) (detail : String)
deriving Repr, DecidableEq

def HResp.status : HResp α → Nat
  | .ok _ => 200
  | .badRequest _ => 400
  | .notFound _ => 404
  | .fail s _ _ => s

def HResp.okBody? : HResp α → Option α
  | .ok b => some b
  | _ => none

/-- The `details` object of `src/server.js` (lines 135–169). -/
structure ServerDetails where
  basis : ServerBasisOut
  brandstoffen : List FuelOut
  kleuren : List KleurOut
  carrosserie : List CarrOut
  carrosserie_specifiek : List CarrOut
  assen : List AsOut
deriving Repr, DecidableEq

/-- The `_raw` passthrough of `src/server.js` (lines 174–181). -/
structure ServerRaw where
  basis : List BasisRec
  brandstof : List FuelRec
  kleur : List KleurRec
  carrosserie : List CarrRec
  carrosserie_specifiek : List CarrRec
  assen : List AsRec
deriving Repr, DecidableEq

/-- The 200 body of `src/server.js` (`_raw` is the `raw` field here). -/
structure ServerBody where
  summary : ServerSummary
  details : ServerDetails
  raw : ServerRaw
deriving Repr, DecidableEq

/-- Plate normalization of `src/server.js` line 34:
coerce to string, delete every hyphen, then uppercase. -/
def serverNormalize (kenteken : Option String) : String :=
  jsToUpper (stripHyphens (kenteken.getD ""))

/-- The success path of the `src/server.js` try-block: the 404 check on
the first basis record, then shaping and the 200 body. -/
def serverRespond (plate : String) (basisArr : List BasisRec)
    (brandstofArr : List FuelRec) (kleurArr : List KleurRec)
    (carrosserieArr : List CarrRec) (carroSpecArr : List CarrRec)
    (asArr : List AsRec) : HResp ServerBody :=
  let basis := basisArr.headD {}
  if !basis.merk.truthy && !basis.handelsbenaming.truthy then
    .notFound "Geen voertuig gevonden voor kenteken."
  else
    let fuels := serverFuels brandstofArr
    let kleuren := kleurArr.map mkKleur
    .ok
      { summary := mkServerSummary plate basis fuels kleuren
      , details :=
        { basis := mkServerBasisOut basis
        , brandstoffen := fuels
        , kleuren := kleuren
        , carrosserie := carrosserieArr.map mkCarr
        , carrosserie_specifiek := carroSpecArr.map mkCarr
        , assen := asArr.map mkAs }
      , raw :=
        { basis := basisArr
        , brandstof := brandstofArr
        , kleur := kleurArr
        , carrosserie := carrosserieArr
        , carrosserie_specifiek := carroSpecArr
        , assen := asArr } }

/-- The `GET /api/rdw` handler of `src/server.js`: empty-plate check, then
`Promise.all` over six fetches (any failure lands in the catch as a 500),
then the success path. -/
def serverHandler (kenteken : Option String) (up : Upstream) : HResp ServerBody :=
  let plate := serverNormalize kenteken
  if plate = "" then .badRequest "kenteken ontbreekt"
  else
    match up.basis, up.brandstof, up.kleur, up.carrosserie, up.carroSpec, up.assen with
    | .ok basisArr, .ok brandstofArr, .ok kleurArr, .ok carrosserieArr,
      .ok carroSpecArr, .ok asArr =>
        serverRespond plate basisArr brandstofArr kleurArr carrosserieArr
          carroSpecArr asArr
    | _, _, _, _, _, _ => .fail 500 "RDW service fout" ((firstError up).getD "")

/-- One character of the plate regex class `[A-Z0-9]`. -/
def plateChar (c : Char) : Bool :=
  ('A' ≤ c && c ≤ 'Z') || ('0' ≤ c && c ≤ '9')

/-- The test `/^[A-Z0-9]{1,8}$/.test(plate)` shared by part_000, part_001
and part_002. -/
def plateRegexOk (p : String) : Bool :=
  decide (1 ≤ p.data.length) && decide (p.data.length ≤ 8) && p.data.all plateChar

/-- Plate normalization of `src/unnamed/part_000` line 28:
coerce to string, uppercase, then delete every hyphen. -/
def p0Normalize (kenteken : Option String) : String :=
  stripHyphens (jsToUpper (kenteken.getD ""))

/-- The validation of `src/unnamed/part_000` lines 28–29: `none` is the
400 short-circuit, `some plate` continues with the normalized plate. -/
def p0ValidatePlate (kenteken : Option String) : Option String :=
  let plate := p0Normalize kenteken
  if !plateRegexOk plate then none else some plate

/-- Plate normalization of `src/unnamed/part_001` line 51: coerce to
string, uppercase, delete every hyphen, then trim leading and trailing
whitespace. -/
def p1Normalize (kenteken : Option String) : String :=
  jsTrim (stripHyphens (jsToUpper (kenteken.getD "")))

/-- One shaped fuel entry of `src/unnamed/part_001` (lines 84–89). -/
structure P1FuelOut where
  brandstof_volgnummer : JSPrim
  omschrijving : JSPrim
  co2_gecombineerd_g_km : JSPrim
  nettomaximumvermogen_kw : JSPrim
deriving Repr, DecidableEq

def mkP1Fuel (x : FuelRec) : P1FuelOut :=
  { brandstof_volgnummer := coerce x.brandstof_volgnummer
  , omschrijving := jsOr (jsOr x.brandstof_omschrijving x.brandstof_omschrijving) .null
  , co2_gecombineerd_g_km := coerce x.co2_uitstoot_gecombineerd
  , nettomaximumvermogen_kw := coerce x.nettomaximumvermogen }

/-- The fuel list of `src/unnamed/part_001`: mapped, then sorted by the
comparator subtracting the keys `(x.brandstof_volgnummer || 99)`. -/
def p1Fuels (rows : List FuelRec) : List P1FuelOut :=
  sortByKey (fun f => jsNumOr f.brandstof_volgnummer 99) (rows.map mkP1Fuel)

/-- The `summary` object of `src/unnamed/part_001` (lines 91–105).  The
colour backfill reads the raw colour rows, not the mapped ones. -/
structure P1Summary where
  kenteken : String
  merk : JSPrim
  handelsbenaming : JSPrim
  voertuigsoort : JSPrim
  bouwjaar : JSPrim
  datum_eerste_toelating : JSPrim
  apk_vervaldatum : JSPrim
  kleur : JSPrim
  tweede_kleur : JSPrim
  brandstof : JSPrim
  zitplaatsen : JSPrim
  deuren : JSPrim
  massa_rijklaar_kg : JSPrim
deriving Repr, DecidableEq

def mkP1Summary (plate : String) (basis : BasisRec)
    (fuels : List P1FuelOut) (kleurRows : List KleurRec) : P1Summary :=
  { kenteken := plate
  , merk := jsOr basis.merk .null
  , handelsbenaming := jsOr basis.handelsbenaming .null
  , voertuigsoort := jsOr basis.voertuigsoort .null
  , bouwjaar := bouwjaarOf basis.datum_eerste_toelating
  , datum_eerste_toelating := p1ParseDate basis.datum_eerste_toelating
  , apk_vervaldatum := p1ParseDate basis.vervaldatum_apk
  , kleur := jsOr (jsOr (headField kleurRows KleurRec.eerste_kleur) basis.eerste_kleur) .null
  , tweede_kleur := jsOr (headField kleurRows KleurRec.tweede_kleur) .null
  , brandstof := jsOr (headField fuels P1FuelOut.omschrijving) .null
  , zitplaatsen := coerce basis.aantal_zitplaatsen
  , deuren := coerce basis.aantal_deuren
  , massa_rijklaar_kg := coerce basis.massa_rijklaar }

/-- The `details.basis` object of `src/unnamed/part_001` (lines 108–126);
note `hoogte_cm` reads `basis.hoogte` and `eu_voertuigcategorie` reads
`basis.eu_voertuigcategorie` in this variant. -/
structure P1BasisOut where
  voertuigsoort : JSPrim
  merk : JSPrim
  handelsbenaming : JSPrim
  inrichting : JSPrim
  catalogusprijs : JSPrim
  aantal_cilinders : JSPrim
  cilinderinhoud_cc : JSPrim
  lengte_cm : JSPrim
  breedte_cm : JSPrim
  hoogte_cm : JSPrim
  wielbasis_cm : JSPrim
  eu_voertuigcategorie : JSPrim
  type : JSPrim
  variant : JSPrim
  uitvoering : JSPrim
  wam_verzekerd : JSPrim
  taxi_indicator : JSPrim
  openstaande_terugroepactie_indicator : JSPrim
deriving Repr, DecidableEq

def mkP1BasisOut (basis : BasisRec) : P1BasisOut :=
  { voertuigsoort := jsOr basis.voertuigsoort .null
  , merk := jsOr basis.merk .null
  , handelsbenaming := jsOr basis.handelsbenaming .null
  , inrichting := jsOr basis.inrichting .null
  , catalogusprijs := coerce basis.catalogusprijs
  , aantal_cilinders := coerce basis.aantal_cilinders
  , cilinderinhoud_cc := coerce basis.cilinderinhoud
  , lengte_cm := coerce basis.lengte
  , breedte_cm := coerce basis.breedte
  , hoogte_cm := coerce basis.hoogte
  , wielbasis_cm := coerce basis.wielbasis
  , eu_voertuigcategorie := jsOr basis.eu_voertuigcategorie .null
  , type := jsOr basis.type .null
  , variant := jsOr basis.variant .null
  , uitvoering := jsOr basis.uitvoering .null
  , wam_verzekerd := jsOr basis.wam_verzekerd .null
  , taxi_indicator := jsOr basis.taxi_indicator .null
  , openstaande_terugroepactie_indicator :=
      jsOr basis.openstaande_terugroepactie_indicator .null }

/-- The `details` object of `src/unnamed/part_001` (lines 107–139),
including the warnings list. -/
structure P1Details where
  basis : P1BasisOut
  brandstoffen : List P1FuelOut
  kleuren : List KleurOut
  assen : List AsOut
  warnings : List String
deriving Repr, DecidableEq

/-- The 200 body of `src/unnamed/part_001` (no raw passthrough). -/
structure P1Body where
  summary : P1Summary
  details : P1Details
deriving Repr, DecidableEq

/-- Upstream outcomes for the four datasets `src/unnamed/part_001`
queries (the body datasets are deliberately skipped in this variant). -/
structure P1Upstream where
  basis : Fetch BasisRec
  brand : Fetch FuelRec
  kleuren : Fetch KleurRec
  assen : Fetch AsRec
deriving Repr, DecidableEq

/-- The warning entries accumulated by the three secondary catch blocks
of `src/unnamed/part_001` (lines 78–82), each `name: message.slice(0,140)`.
The source pushes them in completion order of the concurrent fetches,
which is scheduler-dependent; the model fixes the textual order
brand, kleuren, assen — no claim depends on the relative order.  The
`basis:` warning pushed by the primary catch is unobservable (a failed
primary fetch short-circuits to a 404 whose body has no warnings), so it
is not modelled. -/
def p1Warnings (up : P1Upstream) : List String :=
  (match up.brand with
    | .ok _ => []
    | .err m => ["brandstof: " ++ jsTake m 140]) ++
  (match up.kleuren with
    | .ok _ => []
    | .err m => ["kleuren: " ++ jsTake m 140]) ++
  (match up.assen with
    | .ok _ => []
    | .err m => ["assen: " ++ jsTake m 140])

/-- The first basis row as `src/unnamed/part_001` line 72 computes it:
`arr?.[0] || null`, with a thrown basis fetch leaving the initialiser
`null`. -/
def p1BasisHead (up : P1Upstream) : Option BasisRec :=
  match up.basis with
  | .ok arr => arr.head?
  | .err _ => none

/-- The 200 body built by `src/unnamed/part_001` from a found basis
record and the surviving secondary rows. -/
def p1Respond (plate : String) (basis : BasisRec) (brandRows : List FuelRec)
    (kleurRows : List KleurRec) (asRows : List AsRec)
    (warnings : List String) : P1Body :=
  let fuels := p1Fuels brandRows
  { summary := mkP1Summary plate basis fuels kleurRows
  , details :=
    { basis := mkP1BasisOut basis
    , brandstoffen := fuels
    , kleuren := kleurRows.map mkKleur
    , assen := asRows.map mkAs
    , warnings := warnings } }

/-- The `GET /api/rdw` handler of `src/unnamed/part_001`: regex check,
primary fetch whose absence or failure is an immediate 404, then the
partial-tolerant secondary fan-out.  No branch produces a 5xx. -/
def p1Handler (kenteken : Option String) (up : P1Upstream) : HResp P1Body :=
  let plate := p1Normalize kenteken
  if !plateRegexOk plate then .badRequest "Ongeldig kentekenformaat"
  else
    match p1BasisHead up with
    | none => .notFound "Geen voertuig gevonden voor kenteken."
    | some basis =>
        .ok (p1Respond plate basis up.brand.rowsOr up.kleuren.rowsOr
          up.assen.rowsOr (p1Warnings up))


/-- C6: on every input, the server.js `parseDate` hyphenates exactly the
strings of length 8 into `YYYY-MM-DD` with no calendar validation, and
returns null for every other input; the part_001 variant agrees with it
everywhere. -/
theorem c6_parseDate_spec :
    (∀ t : String, t.length = 8 →
      parseDate (.str t)
        = .str ⟨t.data.take 4 ++ ['-'] ++ (t.data.drop 4).take 2 ++ ['-'] ++ t.data.drop 6⟩) ∧
    (∀ t : String, t.length ≠ 8 → parseDate (.str t) = .null) ∧
    parseDate .undef = .null ∧
    (∀ n : Int, parseDate (.num n) = .null) ∧
    parseDate (.str "20230115") = .str "2023-01-15" ∧
    parseDate (.str "2023") = .null ∧
    parseDate (.str "99999999") = .str "9999-99-99" ∧
    (∀ v : JSPrim, parseDate v = p1ParseDate v) := by
  refine ⟨?_, ?_, rfl, fun n => by simp [parseDate], by decide, by decide, by decide, ?_⟩
  · intro t ht
    have hne : t ≠ "" := by
      intro h
      rw [h] at ht
      simp at ht
    have hne2 : (t != "") = true := by simpa using hne
    have hlen : t.data.length = 8 := ht
    simp only [parseDate, JSPrim.truthy, hne2, Bool.not_true, Bool.false_eq_true,
      if_false, ht, ne_eq, not_true_eq_false, if_true]
    congr 1
    apply String.ext
    have hd6 : (t.data.drop 6).take 2 = t.data.drop 6 := by
      apply List.take_of_length_le
      simp [hlen]
    simp [String.data_append, jsSlice, hd6]
  · intro t ht
    by_cases h0 : t = ""
    · simp [parseDate, JSPrim.truthy, h0]
    · have hne2 : (t != "") = true := by simpa using h0
      simp [parseDate, JSPrim.truthy, hne2, ht]
  · intro v
    cases v with
    | undef => rfl
    | null => rfl
    | nan => rfl
    | num n =>
        by_cases h : (JSPrim.num n).truthy
        · simp [parseDate, p1ParseDate, h]
        · simp [parseDate, p1ParseDate, h]
    | str t =>
        by_cases h0 : t = ""
        · simp [parseDate, p1ParseDate, JSPrim.truthy, h0]
        · have hne2 : (t != "") = true := by simpa using h0
          by_cases h8 : t.length = 8
          · simp [parseDate, p1ParseDate, JSPrim.truthy, hne2, h8]
          · simp [parseDate, p1ParseDate, JSPrim.truthy, hne2, h8]

theorem c6_parseDate_spec_witness :
    parseDate (.str "20230115")
      = .str ⟨"20230115".data.take 4 ++ ['-'] ++ ("20230115".data.drop 4).take 2
          ++ ['-'] ++ "20230115".data.drop 6⟩ :=
  c6_parseDate_spec.1 "20230115" (by decide)

/-- C7: every outbound request carries exactly the headers built from the
app token — a single `X-App-Token` header exactly when the token is
configured non-empty — and the header set is independent of the secondary
secret and every other credential in the process environment. -/
theorem c7_single_token_header :
    (∀ e1 e2 : ProcEnv, e1.RDW_APP_TOKEN = e2.RDW_APP_TOKEN →
      ∀ plate, serverRequests plate e1 = serverRequests plate e2) ∧
    (∀ e plate r, r ∈ serverRequests plate e → r.headers = buildHeaders e) ∧
    (∀ e t, e.RDW_APP_TOKEN = some t → t ≠ "" → buildHeaders e = [("X-App-Token", t)]) ∧
    (∀ e : ProcEnv, e.RDW_APP_TOKEN = none → buildHeaders e = []) ∧
    (∀ e n v, (n, v) ∈ buildHeaders e → n = "X-App-Token") := by
  refine ⟨?_, ?_, ?_, ?_, ?_⟩
  · intro e1 e2 h plate
    simp [serverRequests, buildHeaders, h]
  · intro e plate r hr
    simp only [serverRequests, List.mem_map] at hr
    obtain ⟨u, hu, rfl⟩ := hr
    rfl
  · intro e t ht hne
    simp [buildHeaders, ht, hne]
  · intro e ht
    simp [buildHeaders, ht]
  · intro e n v hnv
    simp only [buildHeaders] at hnv
    cases h : e.RDW_APP_TOKEN with
    | none => rw [h] at hnv; simp at hnv
    | some t =>
        rw [h] at hnv
        by_cases hne : t = ""
        · simp [hne] at hnv
        · simp [hne] at hnv
          exact hnv.1

theorem c7_single_token_header_witness :
    buildHeaders { RDW_APP_TOKEN := some "app-token-abc"
                 , RDW_APP_SECRET := some "zeer-geheime-sleutel" }
      = [("X-App-Token", "app-token-abc")] :=
  c7_single_token_header.2.2.1 _ "app-token-abc" rfl (by decide)

/-- C2 counterexample: the string "0" is truthy in JavaScript, so the
coercion maps it to the number 0, not to null, and a basis record with
`aantal_zitplaatsen = "0"` surfaces as 0 in the shaped summary. -/
theorem c2_coerce_cex :
    coerce (JSPrim.str "0") = JSPrim.num 0 ∧
    coerce (JSPrim.str "0") ≠ JSPrim.null ∧
    (mkServerSummary "AB12CD" { aantal_zitplaatsen := JSPrim.str "0" } [] []).zitplaatsen
      = JSPrim.num 0 := by decide

/-- C2 amended: the coercion is `v ? Number(v) : null`; the falsy values
`""` and `0` collapse to null, `"150"` maps to 150, but the truthy string
`"0"` maps to the number 0, not null — and the shaped quantity fields
apply exactly this coercion. -/
theorem c2_coerce_amended :
    coerce (JSPrim.str "150") = JSPrim.num 150 ∧
    coerce (JSPrim.str "") = JSPrim.null ∧
    coerce (JSPrim.num 0) = JSPrim.null ∧
    coerce (JSPrim.str "0") = JSPrim.num 0 ∧
    (∀ v, v.truthy = false → coerce v = JSPrim.null) ∧
    (∀ plate basis fuels kleuren,
      (mkServerSummary plate basis fuels kleuren).zitplaatsen
          = coerce basis.aantal_zitplaatsen ∧
      (mkServerSummary plate basis fuels kleuren).massa_rijklaar_kg
          = coerce basis.massa_rijklaar) ∧
    (∀ b, (mkFuel b).co2_gecombineerd_g_km = coerce b.co2_uitstoot_gecombineerd) ∧
    (∀ b, (mkP1Fuel b).nettomaximumvermogen_kw = coerce b.nettomaximumvermogen) := by
  refine ⟨by decide, by decide, by decide, by decide, ?_, ?_, fun b => rfl, fun b => rfl⟩
  · intro v hv
    simp [coerce, hv]
  · intro plate basis fuels kleuren
    exact ⟨rfl, rfl⟩

theorem c2_coerce_amended_witness :
    (mkFuel { co2_uitstoot_gecombineerd := JSPrim.str "120" }).co2_gecombineerd_g_km
      = coerce (JSPrim.str "120") :=
  c2_coerce_amended.2.2.2.2.2.2.1 { co2_uitstoot_gecombineerd := JSPrim.str "120" }



/-- Fuel rows carrying sequence numbers 2, 1 and missing, with distinct
descriptions to observe the resulting order. -/
def fuelRowsC5 : List FuelRec :=
  [ { brandstof_volgnummer := .str "2", brandstof_omschrijving := .str "A" }
  , { brandstof_volgnummer := .str "1", brandstof_omschrijving := .str "B" }
  , { brandstof_omschrijving := .str "C" } ]

/-- C5 counterexample: on sequence numbers [2, 1, null] the server.js sort
(null as 0) puts the null entry first, while the part_001 sort (null as
99) puts it last — the program does not use one single tie-break. -/
theorem c5_tiebreak_cex :
    (serverFuels fuelRowsC5).map FuelOut.volgnummer
      = [JSPrim.null, JSPrim.num 1, JSPrim.num 2] ∧
    (serverFuels fuelRowsC5).map FuelOut.omschrijving
      = [JSPrim.str "C", JSPrim.str "B", JSPrim.str "A"] ∧
    (p1Fuels fuelRowsC5).map P1FuelOut.brandstof_volgnummer
      = [JSPrim.num 1, JSPrim.num 2, JSPrim.null] ∧
    (p1Fuels fuelRowsC5).map P1FuelOut.omschrijving
      = [JSPrim.str "B", JSPrim.str "A", JSPrim.str "C"] ∧
    ([JSPrim.str "C", JSPrim.str "B", JSPrim.str "A"]
      ≠ [JSPrim.str "B", JSPrim.str "A", JSPrim.str "C"]) := by decide

/-- C5 amended: each variant sorts its fuel list ascending by its own
fixed default key — null/missing as 0 (first) in server.js, null/missing
as 99 (last among ordinary sequence numbers) in part_001 — and on
[2, 1, null] the outputs are deterministic per variant but differ. -/
theorem c5_sort_amended :
    (∀ rows : List FuelRec,
      (serverFuels rows).Pairwise fun a b =>
        jsNumOr a.volgnummer 0 ≤ jsNumOr b.volgnummer 0) ∧
    (∀ rows : List FuelRec,
      (p1Fuels rows).Pairwise fun a b =>
        jsNumOr a.brandstof_volgnummer 99 ≤ jsNumOr b.brandstof_volgnummer 99) ∧
    (serverFuels fuelRowsC5).map FuelOut.volgnummer
      = [JSPrim.null, JSPrim.num 1, JSPrim.num 2] ∧
    (p1Fuels fuelRowsC5).map P1FuelOut.brandstof_volgnummer
      = [JSPrim.num 1, JSPrim.num 2, JSPrim.null] := by
  refine ⟨fun rows => ?_, fun rows => ?_, by decide, by decide⟩
  · exact sortByKey_pairwise _ _
  · exact sortByKey_pairwise _ _

theorem c5_sort_amended_witness :
    (serverFuels fuelRowsC5).Pairwise
      (fun a b => jsNumOr a.volgnummer 0 ≤ jsNumOr b.volgnummer 0) :=
  c5_sort_amended.1 fuelRowsC5

/-- A basis record whose colour columns are set, to observe the fallback
behaviour when the colour dataset returns zero rows. -/
def basisC8 : BasisRec :=
  { merk := .str "TOYOTA"
  , eerste_kleur := .str "GROEN"
  , tweede_kleur := .str "BLAUW" }

/-- C8 counterexample: with an empty colour list, `summary.kleur` falls
back to the primary record, but `summary.tweede_kleur` is null even though
the primary record carries `tweede_kleur = "BLAUW"` — it never reads the
primary record. -/
theorem c8_tweede_kleur_cex :
    basisC8.tweede_kleur = JSPrim.str "BLAUW" ∧
    (mkServerSummary "AB12CD" basisC8 [] []).kleur = JSPrim.str "GROEN" ∧
    (mkServerSummary "AB12CD" basisC8 [] []).tweede_kleur = JSPrim.null ∧
    JSPrim.null ≠ JSPrim.str "BLAUW" := by decide

/-- C8 amended: the first fuel entry's description backfills
`summary.brandstof`; on an empty colour list `summary.kleur` falls back to
the primary record's `eerste_kleur` (then null), while
`summary.tweede_kleur` falls back to null only, never to the primary
record — in both the server.js and the part_001 shaping. -/
theorem c8_backfill_amended :
    (∀ plate basis fuels kleuren,
      (mkServerSummary plate basis fuels kleuren).brandstof
        = jsOr (headField fuels FuelOut.omschrijving) JSPrim.null) ∧
    (∀ plate basis fuels,
      (mkServerSummary plate basis fuels []).kleur
          = jsOr basis.eerste_kleur JSPrim.null ∧
      (mkServerSummary plate basis fuels []).tweede_kleur = JSPrim.null) ∧
    (∀ plate basis fuels,
      (mkP1Summary plate basis fuels []).kleur
          = jsOr basis.eerste_kleur JSPrim.null ∧
      (mkP1Summary plate basis fuels []).tweede_kleur = JSPrim.null ∧
      (mkP1Summary plate basis fuels []).brandstof
        = jsOr (headField fuels P1FuelOut.omschrijving) JSPrim.null) := by
  exact ⟨fun plate basis fuels kleuren => rfl,
    fun plate basis fuels => ⟨rfl, rfl⟩,
    fun plate basis fuels => ⟨rfl, rfl, rfl⟩⟩

theorem c8_backfill_amended_witness :
    (mkServerSummary "AB12CD" basisC8 [] []).kleur
      = jsOr basisC8.eerste_kleur JSPrim.null :=
  (c8_backfill_amended.2.1 "AB12CD" basisC8 []).1



theorem serverHandler_eq_of_empty (q : Option String) (up : Upstream)
    (h0 : serverNormalize q = "") :
    serverHandler q up = HResp.badRequest "kenteken ontbreekt" := by
  simp [serverHandler, h0]

theorem serverHandler_eq_of_allOk (q : Option String) (up : Upstream)
    (a : List BasisRec) (b : List FuelRec) (c : List KleurRec)
    (d e : List CarrRec) (f : List AsRec)
    (h0 : serverNormalize q ≠ "")
    (h1 : up.basis = .ok a) (h2 : up.brandstof = .ok b) (h3 : up.kleur = .ok c)
    (h4 : up.carrosserie = .ok d) (h5 : up.carroSpec = .ok e) (h6 : up.assen = .ok f) :
    serverHandler q up = serverRespond (serverNormalize q) a b c d e f := by
  simp only [serverHandler]
  rw [if_neg h0, h1, h2, h3, h4, h5, h6]

theorem serverRespond_ne_badRequest (plate : String) (a : List BasisRec)
    (b : List FuelRec) (c : List KleurRec) (d e : List CarrRec) (f : List AsRec)
    (msg : String) : serverRespond plate a b c d e f ≠ HResp.badRequest msg := by
  intro h
  simp only [serverRespond] at h
  split at h
  · exact HResp.noConfusion h
  · exact HResp.noConfusion h

theorem p1Handler_eq_of_bad (q : Option String) (up : P1Upstream)
    (hreg : plateRegexOk (p1Normalize q) = false) :
    p1Handler q up = HResp.badRequest "Ongeldig kentekenformaat" := by
  simp [p1Handler, hreg]

theorem p1Handler_eq_of_absent (q : Option String) (up : P1Upstream)
    (hreg : plateRegexOk (p1Normalize q) = true)
    (hb : p1BasisHead up = none) :
    p1Handler q up = HResp.notFound "Geen voertuig gevonden voor kenteken." := by
  simp [p1Handler, hreg, hb]

theorem p1Handler_eq_of_found (q : Option String) (up : P1Upstream) (basis : BasisRec)
    (hreg : plateRegexOk (p1Normalize q) = true)
    (hb : p1BasisHead up = some basis) :
    p1Handler q up
      = HResp.ok (p1Respond (p1Normalize q) basis up.brand.rowsOr up.kleuren.rowsOr
          up.assen.rowsOr (p1Warnings up)) := by
  simp [p1Handler, hreg, hb]

/-- The all-empty successful upstream: every dataset answers with zero
rows. -/
def upAllEmpty : Upstream :=
  { basis := .ok [], brandstof := .ok [], kleur := .ok []
  , carrosserie := .ok [], carroSpec := .ok [], assen := .ok [] }

/-- C3 counterexample: `src/server.js` does not validate against the
plate regex — the input "a!b" normalizes to "A!B", which contains a
character outside [A-Z0-9], yet the handler does not answer 400: with
successful (empty) upstream fetches it answers 404, i.e. the request was
not rejected before the remote calls. -/
theorem c3_server_regex_cex :
    plateRegexOk (serverNormalize (some "a!b")) = false ∧
    serverHandler (some "a!b") upAllEmpty
      = HResp.notFound "Geen voertuig gevonden voor kenteken." ∧
    (serverHandler (some "a!b") upAllEmpty).status = 404 ∧ (404 ≠ 400) := by decide

/-- C3 amended: part_000 and part_001 do reject, with a 400 and before
consuming any upstream result, every plate that normalizes outside the
regex (in particular when a character outside [A-Z0-9] remains after
hyphen removal, or more than 8 characters remain); `src/server.js`
instead answers 400 exactly when the normalized plate is empty. -/
theorem c3_regex_amended :
    (∀ q up, plateRegexOk (p1Normalize q) = false →
      p1Handler q up = HResp.badRequest "Ongeldig kentekenformaat") ∧
    (∀ q, plateRegexOk (p0Normalize q) = false → p0ValidatePlate q = none) ∧
    (∀ (p : String) (c : Char), c ∈ p.data → plateChar c = false →
      plateRegexOk p = false) ∧
    (∀ p : String, 8 < p.data.length → plateRegexOk p = false) ∧
    (∀ q up, serverHandler q up = HResp.badRequest "kenteken ontbreekt" ↔
      serverNormalize q = "") := by
  refine ⟨?_, ?_, ?_, ?_, ?_⟩
  · intro q up h
    exact p1Handler_eq_of_bad q up h
  · intro q h
    simp [p0ValidatePlate, h]
  · intro p c hc hpc
    by_contra hcon
    have htrue : plateRegexOk p = true := by
      cases h : plateRegexOk p
      · exact absurd h hcon
      · rfl
    simp only [plateRegexOk, Bool.and_eq_true, decide_eq_true_eq,
      List.all_eq_true] at htrue
    have := htrue.2 c hc
    rw [hpc] at this
    exact Bool.false_ne_true this
  · intro p hp
    by_contra hcon
    have htrue : plateRegexOk p = true := by
      cases h : plateRegexOk p
      · exact absurd h hcon
      · rfl
    simp only [plateRegexOk, Bool.and_eq_true, decide_eq_true_eq,
      List.all_eq_true] at htrue
    omega
  · intro q up
    constructor
    · intro h
      by_contra hne
      obtain ⟨f1, f2, f3, f4, f5, f6⟩ := up
      cases f1 with
      | err m => simp [serverHandler, if_neg hne] at h
      | ok a =>
        cases f2 with
        | err m => simp [serverHandler, if_neg hne] at h
        | ok b =>
          cases f3 with
          | err m => simp [serverHandler, if_neg hne] at h
          | ok c =>
            cases f4 with
            | err m => simp [serverHandler, if_neg hne] at h
            | ok d =>
              cases f5 with
              | err m => simp [serverHandler, if_neg hne] at h
              | ok e =>
                cases f6 with
                | err m => simp [serverHandler, if_neg hne] at h
                | ok f =>
                    rw [serverHandler_eq_of_allOk q _ a b c d e f hne rfl rfl rfl rfl rfl rfl] at h
                    exact serverRespond_ne_badRequest _ a b c d e f _ h
    · intro h0
      exact serverHandler_eq_of_empty q up h0

theorem c3_regex_amended_witness :
    p1Handler (some "a!b")
        { basis := Fetch.ok [], brand := Fetch.ok []
        , kleuren := Fetch.ok [], assen := Fetch.ok [] }
      = HResp.badRequest "Ongeldig kentekenformaat" :=
  c3_regex_amended.1 (some "a!b") _ (by decide)

/-- The part_001 upstream whose basis dataset answers with one fully
empty record (no merk, no handelsbenaming). -/
def upC4 : P1Upstream :=
  { basis := .ok [{}], brand := .ok [], kleuren := .ok [], assen := .ok [] }

/-- C4 counterexample: in the partial-tolerant variant a present first
basis record with neither `merk` nor `handelsbenaming` is truthy, so the
handler answers 200 (with a null merk), not 404 — the 404 check there is
only on the absence of a first row. -/
theorem c4_p1_no_merk_cex :
    ({} : BasisRec).merk = JSPrim.undef ∧
    ({} : BasisRec).handelsbenaming = JSPrim.undef ∧
    (p1Handler (some "AB12CD") upC4).status = 200 ∧ (200 ≠ 404) ∧
    ((p1Handler (some "AB12CD") upC4).okBody?.map fun b => b.summary.merk)
      = some JSPrim.null := by decide

/-- C4 amended: in `src/server.js` (all fetches successful) a first basis
record with falsy `merk` and `handelsbenaming` does yield the 404,
whatever the secondary rows; in part_001 the 404 happens exactly when
there is no first basis row (empty row list or failed basis fetch) — a
present record without merk/handelsbenaming yields 200 there. -/
theorem c4_notfound_amended :
    (∀ q up (a : List BasisRec) (b : List FuelRec) (c : List KleurRec)
        (d e : List CarrRec) (f : List AsRec),
      serverNormalize q ≠ "" →
      up.basis = .ok a → up.brandstof = .ok b → up.kleur = .ok c →
      up.carrosserie = .ok d → up.carroSpec = .ok e → up.assen = .ok f →
      (a.headD {}).merk.truthy = false →
      (a.headD {}).handelsbenaming.truthy = false →
      serverHandler q up = HResp.notFound "Geen voertuig gevonden voor kenteken.") ∧
    (∀ q up, plateRegexOk (p1Normalize q) = true →
      ((p1Handler q up).status = 404 ↔ p1BasisHead up = none)) := by
  constructor
  · intro q up a b c d e f h0 h1 h2 h3 h4 h5 h6 hm hh
    rw [serverHandler_eq_of_allOk q up a b c d e f h0 h1 h2 h3 h4 h5 h6]
    simp only [serverRespond]
    rw [hm, hh]
    simp
  · intro q up hreg
    cases hb : p1BasisHead up with
    | none =>
        rw [p1Handler_eq_of_absent q up hreg hb]
        simp [HResp.status]
    | some basis =>
        rw [p1Handler_eq_of_found q up basis hreg hb]
        simp [HResp.status]

theorem c4_notfound_amended_witness :
    serverHandler (some "AB12CD") upAllEmpty
      = HResp.notFound "Geen voertuig gevonden voor kenteken." :=
  c4_notfound_amended.1 (some "AB12CD") upAllEmpty [] [] [] [] [] []
    (by decide) rfl rfl rfl rfl rfl rfl (by decide) (by decide)



theorem serverHandler_ok_inv (q : Option String) (up : Upstream) (body : ServerBody)
    (h : serverHandler q up = HResp.ok body) :
    body.summary.kenteken = serverNormalize q := by
  by_cases h0 : serverNormalize q = ""
  · rw [serverHandler_eq_of_empty q up h0] at h
    exact HResp.noConfusion h
  · obtain ⟨f1, f2, f3, f4, f5, f6⟩ := up
    cases f1 <;> cases f2 <;> cases f3 <;> cases f4 <;> cases f5 <;> cases f6 <;>
      simp only [serverHandler, if_neg h0] at h <;>
      first
        | exact HResp.noConfusion h
        | (simp only [serverRespond] at h
           split at h
           · exact HResp.noConfusion h
           · injection h with h2
             subst h2
             rfl)

theorem p1Handler_ok_inv (q : Option String) (up : P1Upstream) (body : P1Body)
    (h : p1Handler q up = HResp.ok body) :
    body.summary.kenteken = p1Normalize q ∧ plateRegexOk (p1Normalize q) = true := by
  cases hreg : plateRegexOk (p1Normalize q) with
  | false =>
      rw [p1Handler_eq_of_bad q up hreg] at h
      exact HResp.noConfusion h
  | true =>
      cases hb : p1BasisHead up with
      | none =>
          rw [p1Handler_eq_of_absent q up hreg hb] at h
          exact HResp.noConfusion h
      | some basis =>
          rw [p1Handler_eq_of_found q up basis hreg hb] at h
          injection h with h2
          subst h2
          exact ⟨rfl, rfl⟩

/-- An upstream with a found vehicle, used to observe what a 200 response
echoes for a whitespace-containing plate in `src/server.js`. -/
def upB9 : Upstream :=
  { basis := .ok [{ merk := .str "X" }], brandstof := .ok [], kleur := .ok []
  , carrosserie := .ok [], carroSpec := .ok [], assen := .ok [] }

/-- C9 counterexample: `src/server.js` strips hyphens and uppercases but
does not remove whitespace, so the input " ab" normalizes to " AB": the
whitespace-containing plate is interpolated into the upstream query URL
and echoed as `summary.kenteken` — not the whitespace-free form "AB". -/
theorem c9_whitespace_cex :
    serverNormalize (some " ab-12-cd") = " AB12CD" ∧
    (" AB12CD" : String) ≠ "AB12CD" ∧
    ((serverHandler (some " ab") upB9).okBody?.map fun b => b.summary.kenteken)
      = some " AB" ∧
    (serverDatasetUrls (serverNormalize (some " ab"))).head?
      = some "https://opendata.rdw.nl/resource/m9d7-ebf2.json?kenteken= AB" := by decide

/-- C9 amended: all variants uppercase and strip hyphens (so that
"ab-12-cd" normalizes to "AB12CD"); part_001 additionally trims edge
whitespace only.  In `src/server.js` a 200 response echoes exactly the
hyphen-stripped uppercased input (whitespace intact); in part_001 any
echoed plate passed the regex and is therefore alphanumeric and
whitespace-free. -/
theorem c9_normalize_amended :
    serverNormalize (some "ab-12-cd") = "AB12CD" ∧
    p0Normalize (some "ab-12-cd") = "AB12CD" ∧
    p1Normalize (some " ab-12-cd ") = "AB12CD" ∧
    (∀ q up body, serverHandler q up = HResp.ok body →
      body.summary.kenteken = serverNormalize q) ∧
    (∀ q up body, p1Handler q up = HResp.ok body →
      plateRegexOk body.summary.kenteken = true) := by
  refine ⟨by decide, by decide, by decide, serverHandler_ok_inv, ?_⟩
  intro q up body h
  obtain ⟨h1, h2⟩ := p1Handler_ok_inv q up body h
  rw [h1]
  exact h2

/-- The exact 200 body `src/server.js` produces for the plate " AB" under
`upB9`. -/
def c9Body : ServerBody :=
  { summary := mkServerSummary " AB" { merk := .str "X" } [] []
  , details :=
    { basis := mkServerBasisOut { merk := .str "X" }
    , brandstoffen := [], kleuren := [], carrosserie := []
    , carrosserie_specifiek := [], assen := [] }
  , raw :=
    { basis := [{ merk := .str "X" }], brandstof := [], kleur := []
    , carrosserie := [], carrosserie_specifiek := [], assen := [] } }

theorem c9_normalize_amended_witness :
    c9Body.summary.kenteken = serverNormalize (some " ab") :=
  c9_normalize_amended.2.2.2.1 (some " ab") upB9 c9Body (by decide)

/-- A part_001 upstream where both the colour and the axle fetch throw,
the colour error message itself mentioning "assen". -/
def upC1twoFail : P1Upstream :=
  { basis := .ok [{}], brand := .ok []
  , kleuren := .err "fout in assen-dataset", assen := .err "upstream stuk" }

/-- A part_001 upstream whose basis fetch succeeds with zero rows while
the axle fetch throws. -/
def upC1emptyBasis : P1Upstream :=
  { basis := .ok [], brand := .ok [], kleuren := .ok [], assen := .err "upstream stuk" }

/-- C1 counterexample: with basis and fuel successful and the axle fetch
failing, the claim is not yet forced — if the colour fetch also fails the
warnings list has two entries (both can mention "assen"), and if the
successful basis fetch returned zero rows the response is a 404, not
200. -/
theorem c1_axle_warning_cex :
    ((p1Handler (some "AB12CD") upC1twoFail).okBody?.map fun b => b.details.warnings)
      = some ["kleuren: fout in assen-dataset", "assen: upstream stuk"] ∧
    ((p1Handler (some "AB12CD") upC1twoFail).okBody?.map fun b =>
      b.details.warnings.countP mentionsAssen) = some 2 ∧ (2 ≠ 1) ∧
    ((p1Handler (some "AB12CD") upC1twoFail).okBody?.map fun b =>
      b.details.warnings.length) = some 2 ∧
    (p1Handler (some "AB12CD") upC1emptyBasis).status = 404 ∧ (404 ≠ 200) := by decide

/-- C1 amended: when the basis fetch succeeds with at least one row and
the fuel and colour fetches succeed while the axle fetch throws, the
partial-tolerant handler answers 200, `details.assen` is empty, and
`details.warnings` is exactly one entry "assen: " followed by the error
message truncated to 140 characters — an entry that mentions "assen". -/
theorem c1_axle_warning_amended :
    ∀ q up basis (brandRows : List FuelRec) (kleurRows : List KleurRec) msg,
      plateRegexOk (p1Normalize q) = true →
      p1BasisHead up = some basis →
      up.brand = Fetch.ok brandRows →
      up.kleuren = Fetch.ok kleurRows →
      up.assen = Fetch.err msg →
      (p1Handler q up).status = 200 ∧
      ((p1Handler q up).okBody?.map fun b => b.details.assen) = some [] ∧
      ((p1Handler q up).okBody?.map fun b => b.details.warnings)
        = some ["assen: " ++ jsTake msg 140] ∧
      mentionsAssen ("assen: " ++ jsTake msg 140) = true := by
  intro q up basis brandRows kleurRows msg hreg hb h2 h3 h4
  rw [p1Handler_eq_of_found q up basis hreg hb]
  refine ⟨rfl, ?_, ?_, rfl⟩
  · simp [HResp.okBody?, p1Respond, h4, Fetch.rowsOr]
  · simp [HResp.okBody?, p1Respond, p1Warnings, h2, h3, h4]

/-- The part_001 upstream of the nominal C1 scenario: vehicle found, fuel
and colour fine, axle fetch throwing. -/
def upC1good : P1Upstream :=
  { basis := .ok [{}], brand := .ok [], kleuren := .ok [], assen := .err "upstream stuk" }

theorem c1_axle_warning_amended_witness :
    (p1Handler (some "AB12CD") upC1good).status = 200 ∧
    ((p1Handler (some "AB12CD") upC1good).okBody?.map fun b => b.details.assen)
      = some [] ∧
    ((p1Handler (some "AB12CD") upC1good).okBody?.map fun b => b.details.warnings)
      = some ["assen: " ++ jsTake "upstream stuk" 140] ∧
    mentionsAssen ("assen: " ++ jsTake "upstream stuk" 140) = true :=
  c1_axle_warning_amended (some "AB12CD") upC1good {} [] [] "upstream stuk"
    (by decide) (by decide) rfl rfl rfl

/-- C10: in the partial-tolerant variant a thrown basis fetch produces
the same 404 body as a successful basis fetch with zero rows — the two
are indistinguishable at the public interface — and no execution of this
handler produces a 5xx status. -/
theorem c10_basis_failure_404 :
    (∀ q up msg, plateRegexOk (p1Normalize q) = true → up.basis = Fetch.err msg →
      p1Handler q up = HResp.notFound "Geen voertuig gevonden voor kenteken." ∧
      (∀ up2 : P1Upstream, up2.basis = Fetch.ok [] →
        p1Handler q up2 = p1Handler q up)) ∧
    (∀ q up, (p1Handler q up).status = 200 ∨ (p1Handler q up).status = 400 ∨
      (p1Handler q up).status = 404) := by
  constructor
  · intro q up msg hreg hb
    have h1 : p1BasisHead up = none := by simp [p1BasisHead, hb]
    have hmain := p1Handler_eq_of_absent q up hreg h1
    refine ⟨hmain, ?_⟩
    intro up2 hb2
    have h2 : p1BasisHead up2 = none := by simp [p1BasisHead, hb2]
    rw [p1Handler_eq_of_absent q up2 hreg h2, hmain]
  · intro q up
    cases hreg : plateRegexOk (p1Normalize q) with
    | false =>
        rw [p1Handler_eq_of_bad q up hreg]
        right; left; rfl
    | true =>
        cases hb : p1BasisHead up with
        | none =>
            rw [p1Handler_eq_of_absent q up hreg hb]
            right; right; rfl
        | some basis =>
            rw [p1Handler_eq_of_found q up basis hreg hb]
            left; rfl

theorem c10_basis_failure_404_witness :
    p1Handler (some "AB12CD")
        { basis := Fetch.err "RDW 500 Internal Server Error"
        , brand := Fetch.ok [], kleuren := Fetch.ok [], assen := Fetch.ok [] }
      = HResp.notFound "Geen voertuig gevonden voor kenteken." :=
  (c10_basis_failure_404.1 (some "AB12CD") _ "RDW 500 Internal Server Error"
    (by decide) rfl).1


end ProDrive
